import Mathlib

/-!
Shallow embedding of the To-Do-App backend (src/frontend+backend/server.js).

The server is an Express + knex/SQLite application.  The relational store is
modelled as explicit lists of rows; every handler becomes a pure function from
the request data and the current store to an `Except` of an HTTP error
response (status code plus message) and the new store.  ISO calendar date
strings (the format YYYY-MM-DD) are modelled as day numbers, so that the
lexicographic order on the strings coincides with the numeric order on the
model.  Machine time is modelled at minute granularity.
-/

namespace TodoApp

/-- Row of the `users` table (server.js lines 24-33). -/
structure User where
  id : Nat
  username : String
  email : String
  /-- Stores the bcrypt hash, never the plaintext. -/
  password : String
  browser_notifications : Bool
deriving Repr, DecidableEq

/-- Row of the `tasks` table (server.js lines 36-49).  Nullable columns are
`Option`; `dueDate` is an ISO date modelled as a day number. -/
structure Task where
  id : Nat
  title : String
  description : Option String
  priority : String
  status : String
  dueDate : Option Nat
  completed : Bool
  user_id : Nat
  created_at : Option String
deriving Repr, DecidableEq

/-- The relational store: the two tables plus the AUTOINCREMENT counter that
SQLite keeps for the `tasks` rowid. -/
structure DB where
  users : List User
  tasks : List Task
  nextTaskId : Nat
deriving Repr, DecidableEq

/-- An HTTP error response: `res.status(code).json(\x7b message \x7d)`. -/
structure ErrResp where
  status : Nat
  message : String
deriving Repr, DecidableEq

/-! Create task: POST /api/tasks handler (server.js lines 241-265). -/

/-- Request body of POST /api/tasks.  `none` marks a field that is absent
(undefined) in the JSON body.  The handler destructures only `title`,
`description`, `priority`, `status` and `dueDate`; the remaining fields model
junk a caller may also send, which the handler never reads. -/
structure CreateBody where
  title : Option String := none
  description : Option String := none
  priority : Option String := none
  status : Option String := none
  dueDate : Option Nat := none
  id : Option Nat := none
  user_id : Option Nat := none
  completed : Option Bool := none
  created_at : Option String := none
deriving Repr, DecidableEq

/-- The row inserted by the POST /api/tasks handler: defaults
`description=""`, `priority="medium"`, `status="pending"`, completed derived
from status, owner and timestamp assigned server side, id from the
AUTOINCREMENT counter (server.js lines 242-258). -/
def mkTask (userId : Nat) (now : String) (body : CreateBody) (newId : Nat) : Task :=
  { id := newId
    title := body.title.getD ""
    description := some (body.description.getD "")
    priority := body.priority.getD "medium"
    status := body.status.getD "pending"
    dueDate := body.dueDate
    completed := body.status.getD "pending" == "completed"
    user_id := userId
    created_at := some now }

/-- POST /api/tasks handler (server.js lines 241-265).  Rejects a missing or
empty (falsy) title with 400; a primary-key collision on insert surfaces as
the catch-all 500.  On success returns the new store and the row re-fetched
by the fresh id, exactly as the handler does. -/
def createTask (userId : Nat) (now : String) (body : CreateBody) (db : DB) :
    Except ErrResp (DB × Option Task) :=
  if body.title.getD "" = "" then
    .error ⟨400, "Task title is required"⟩
  else if db.tasks.any (fun t => t.id == db.nextTaskId) then
    .error ⟨500, "Failed to create task"⟩
  else
    let t := mkTask userId now body db.nextTaskId
    let db' : DB := { db with tasks := db.tasks ++ [t], nextTaskId := db.nextTaskId + 1 }
    .ok (db', db'.tasks.find? (fun x => x.id == db.nextTaskId))

/-! Update task: PUT /api/tasks/:id handler (server.js lines 268-287). -/

/-- Request body of PUT /api/tasks/:id over the known columns.  The outer
`Option` marks presence of the field in the JSON body; for nullable columns
the inner `Option` is the stored value, so `some none` sets the column to
null. -/
structure UpdatePayload where
  title : Option String := none
  description : Option (Option String) := none
  priority : Option String := none
  status : Option String := none
  dueDate : Option (Option Nat) := none
  completed : Option Bool := none
  id : Option Nat := none
  user_id : Option Nat := none
  created_at : Option (Option String) := none
deriving Repr, DecidableEq

/-- JavaScript truthiness of a possibly absent string field: present and not
the empty string. -/
def isTruthy (s : Option String) : Bool :=
  match s with
  | some v => v ≠ ""
  | none => false

/-- The in-place mutation of the update body (server.js lines 277-278):
`if (updates.status === "completed") updates.completed = true; else if
(updates.status) updates.completed = false;`. -/
def deriveUpdates (p : UpdatePayload) : UpdatePayload :=
  if p.status = some "completed" then { p with completed := some true }
  else if isTruthy p.status then { p with completed := some false }
  else p

/-- True when at least one column is present in the update body; knex rejects
an update with an empty set clause. -/
def hasAnyField (p : UpdatePayload) : Bool :=
  p.title.isSome || p.description.isSome || p.priority.isSome || p.status.isSome ||
  p.dueDate.isSome || p.completed.isSome || p.id.isSome || p.user_id.isSome ||
  p.created_at.isSome

/-- Application of the knex `.update(updates)` object to one row: every
present field overwrites the stored column, absent fields are untouched. -/
def applyUpdates (p : UpdatePayload) (t : Task) : Task :=
  { id := p.id.getD t.id
    title := p.title.getD t.title
    description := p.description.getD t.description
    priority := p.priority.getD t.priority
    status := p.status.getD t.status
    dueDate := p.dueDate.getD t.dueDate
    completed := p.completed.getD t.completed
    user_id := p.user_id.getD t.user_id
    created_at := p.created_at.getD t.created_at }

/-- PUT /api/tasks/:id handler (server.js lines 268-287).  First fetches the
row by id AND owner and answers 404 when there is none; then mutates the
body per `deriveUpdates` and applies it to every row matching the id alone
(`where (\x7b id \x7d)`), finally re-fetches by the original id (which can miss
when the body changed the id, hence the `Option Task` in the result).  An
empty set clause or a primary-key collision raised by SQLite is caught and
becomes the 500 response. -/
def updateTask (userId taskId : Nat) (body : UpdatePayload) (db : DB) :
    Except ErrResp (DB × Option Task) :=
  match db.tasks.find? (fun t => t.id == taskId && t.user_id == userId) with
  | none => .error ⟨404, "Task not found"⟩
  | some _ =>
    let updates := deriveUpdates body
    if ¬ hasAnyField updates then
      .error ⟨500, "Failed to update task"⟩
    else if (match updates.id with
             | some v => v ≠ taskId && db.tasks.any (fun t => t.id == v)
             | none => false) then
      .error ⟨500, "Failed to update task"⟩
    else
      let newTasks := db.tasks.map (fun t => if t.id == taskId then applyUpdates updates t else t)
      .ok ({ db with tasks := newTasks }, newTasks.find? (fun t => t.id == taskId))

/-- DELETE /api/tasks/:id handler (server.js lines 290-302): deletes the rows
matching id AND owner; a zero delete count answers 404. -/
def deleteTask (userId taskId : Nat) (db : DB) : Except ErrResp DB :=
  let count := db.tasks.countP (fun t => t.id == taskId && t.user_id == userId)
  if count = 0 then
    .error ⟨404, "Task not found"⟩
  else
    .ok { db with tasks := db.tasks.filter (fun t => ¬ (t.id == taskId && t.user_id == userId)) }

/-! Account deletion: DELETE /api/me/delete-account handler
(server.js lines 340-362). -/

/-- Body of the knex transaction inside the delete-account handler: delete
every task of the user, then the user row; a zero delete count on the user
row throws, which aborts the transaction. -/
def deleteAccountTrx (userId : Nat) (db : DB) : Except String DB :=
  let afterTasks := { db with tasks := db.tasks.filter (fun t => ¬ (t.user_id == userId)) }
  if afterTasks.users.countP (fun u => u.id == userId) = 0 then
    .error "User not found"
  else
    .ok { afterTasks with users := afterTasks.users.filter (fun u => ¬ (u.id == userId)) }

/-- DELETE /api/me/delete-account handler (server.js lines 340-362): runs the
transaction body; on a throw the transaction rolls back, so the store is the
untouched input and the caller sees the catch-all 500. -/
def deleteAccount (userId : Nat) (db : DB) : DB × Except ErrResp String :=
  match deleteAccountTrx userId db with
  | .ok db' => (db', .ok "Account and all data deleted successfully")
  | .error _ => (db, .error ⟨500, "Failed to delete account"⟩)

/-! Tokens and authentication (server.js lines 110-128, 169-188).  The
jsonwebtoken library is external to the repository; it is modelled as an
ideal signature scheme: a token carries its payload, its issue time (in
seconds) and the key it was signed with, and verification succeeds exactly
when the keys match and the token is not expired. -/

/-- Claims embedded in a token by `signToken`: the user id and username. -/
structure TokenPayload where
  id : Nat
  username : String
deriving Repr, DecidableEq

/-- Model of a JWT: payload, issue time (seconds), signing key. -/
structure Token where
  payload : TokenPayload
  iat : Nat
  key : String
deriving Repr, DecidableEq

/-- JWT_EXPIRE is "24h" (server.js line 18), in seconds. -/
def JWT_EXPIRE_SECONDS : Nat := 24 * 60 * 60

/-- The signToken helper (server.js lines 110-114). -/
def signToken (user : User) (secret : String) (now : Nat) : Token :=
  { payload := { id := user.id, username := user.username }, iat := now, key := secret }

/-- Model of jwt.verify: fails on a key mismatch (bad signature) or once the
clock reaches `iat + 24h` (expiry). -/
def verifyToken (tok : Token) (secret : String) (now : Nat) : Except String TokenPayload :=
  if tok.key ≠ secret then .error "invalid signature"
  else if tok.iat + JWT_EXPIRE_SECONDS ≤ now then .error "jwt expired"
  else .ok tok.payload

/-- Shape of the Authorization header of a request: absent, present but not
of the `Bearer <token>` form, or carrying a token. -/
inductive AuthHeader where
  | missing : AuthHeader
  | notBearer : String → AuthHeader
  | bearer : Token → AuthHeader
deriving Repr, DecidableEq

/-- The requireAuth middleware (server.js lines 116-128): 401 without a
bearer header, 401 on a failed verification, otherwise the decoded identity
is attached to the request. -/
def requireAuth (h : AuthHeader) (secret : String) (now : Nat) : Except ErrResp TokenPayload :=
  match h with
  | .missing => .error ⟨401, "No token provided"⟩
  | .notBearer _ => .error ⟨401, "No token provided"⟩
  | .bearer tok =>
    match verifyToken tok secret now with
    | .ok p => .ok p
    | .error _ => .error ⟨401, "Invalid or expired token"⟩

/-- Success body of POST /api/auth/login (server.js lines 178-183). -/
structure LoginResp where
  access_token : Token
  token_type : String
  username : String
  email : String
deriving Repr, DecidableEq

/-- POST /api/auth/login handler (server.js lines 169-188).  `compare` is
the bcrypt.compare primitive (external library), passed as a parameter; the
user lookup is by email, and both failure modes answer with the one 401
response.  `secret` and `now` feed signToken. -/
def login (compare : String → String → Bool) (secret : String) (now : Nat)
    (email password : String) (db : DB) : Except ErrResp LoginResp :=
  match db.users.find? (fun u => u.email == email) with
  | none => .error ⟨401, "Incorrect email or password"⟩
  | some user =>
    if ¬ compare password user.password then
      .error ⟨401, "Incorrect email or password"⟩
    else
      .ok { access_token := signToken user secret now
            token_type := "bearer"
            username := user.username
            email := user.email }

/-! Due-soon listing: GET /api/tasks/due-soon handler (server.js
lines 209-238).  Calendar arithmetic is modelled at minute granularity.  The
handler takes `new Date()` (the current instant), renders today and the
instant one local calendar day later through toISOString, whose date part is
the UTC calendar date, and filters on those two date strings. -/

/-- Minutes in a day. -/
def minutesPerDay : Nat := 1440

/-- The current instant: UTC calendar day number, minutes past UTC midnight
(well formed when below 1440), and the fixed offset of the server timezone
from UTC in minutes. -/
structure Clock where
  utcDay : Nat
  minOfDay : Nat
  tzOffsetMin : Int
deriving Repr, DecidableEq

/-- Minutes since the epoch of the instant. -/
def nowMinutes (c : Clock) : Nat := c.utcDay * minutesPerDay + c.minOfDay

/-- The server-local calendar day of the instant: the day number of the
instant shifted by the timezone offset. -/
def localDay (c : Clock) : Int := ((nowMinutes c : Int) + c.tzOffsetMin) / (minutesPerDay : Int)

/-- Ceiling division for a positive divisor, as Math.ceil of the exact
quotient. -/
def ceilDiv (a b : Int) : Int := (a + b - 1) / b

/-- Math.ceil((dueDate - today) / 86400000) where dueDate parses the ISO date
string as UTC midnight of that day (server.js lines 225-226). -/
def daysUntilDue (dueDay : Nat) (c : Clock) : Int :=
  ceilDiv ((dueDay : Int) * (minutesPerDay : Int) - (nowMinutes c : Int)) (minutesPerDay : Int)

/-- Sort key of the ORDER BY dueDate clause; the filtered rows all carry a
date, so the default for null never surfaces. -/
def dueSoonKey (t : Task) : Nat := t.dueDate.getD 0

/-- The ORDER BY dueDate ascending comparator. -/
def dueLe (a b : Task) : Bool := dueSoonKey a ≤ dueSoonKey b

/-- GET /api/tasks/due-soon handler (server.js lines 209-238).  todayString
is the UTC date of the instant; tomorrowString renders the instant plus one
local calendar day, whose UTC date is always utcDay + 1.  Rows of the user
that are not completed and whose dueDate is one of the two strings are
sorted by dueDate ascending and each is paired with daysUntilDue. -/
def listDueSoon (userId : Nat) (c : Clock) (db : DB) : List (Task × Int) :=
  let todayString := c.utcDay
  let tomorrowString := c.utcDay + 1
  let dueTasks :=
    (db.tasks.filter (fun t =>
      t.user_id == userId && t.completed == false &&
      (t.dueDate == some todayString || t.dueDate == some tomorrowString))).mergeSort dueLe
  dueTasks.map (fun t => (t, daysUntilDue (dueSoonKey t) c))

/-- Modelled from the spec, for comparison with the code (refinement):
membership of a task in the due-soon result per the spec wording, which asks
for the tasks of the user, not completed, whose due date equals the current
or next SERVER-LOCAL calendar date. -/
def dueSoonSpecIncluded (userId : Nat) (c : Clock) (t : Task) : Bool :=
  t.user_id == userId && t.completed == false &&
  (t.dueDate.any (fun d => (d : Int) == localDay c) ||
   t.dueDate.any (fun d => (d : Int) == localDay c + 1))

/-! Schema migration (server.js lines 21-90).  The schema is modelled by the
presence of the two tables and of the columns the routine inspects; the
remaining columns are fixed by the CREATE TABLE shapes and never inspected
again, so they are not tracked.  Row contents other than the migrated
columns are opaque strings, kept to state data preservation. -/

/-- Migration-relevant columns of the users table: presence of the legacy
email_notifications column and of the current browser_notifications
column. -/
structure UsersSchema where
  email_notifications : Bool
  browser_notifications : Bool
deriving Repr, DecidableEq

/-- Migration-relevant columns of the tasks table: presence of the legacy
reminder_sent column and of the created_at column. -/
structure TasksSchema where
  reminder_sent : Bool
  created_at : Bool
deriving Repr, DecidableEq

/-- A stored tasks row as the migration sees it: the opaque rest of the row
plus the created_at cell (null until backfilled when the column is new). -/
structure MigTaskRow where
  data : String
  created_at : Option String
deriving Repr, DecidableEq

/-- The persistent store shape the migration routine operates on.  A table
that is absent (`none`) has no rows. -/
structure Schema where
  usersTable : Option UsersSchema
  tasksTable : Option TasksSchema
  userRows : List String
  taskRows : List MigTaskRow
deriving Repr, DecidableEq

/-- Steps 4 to 6 of the migration (server.js lines 59-84): add
browser_notifications when absent, drop reminder_sent when present, add
created_at when absent and backfill every row with the current timestamp. -/
def migrateTail (now : String) (s : Schema) (uc : UsersSchema) (tc : TasksSchema) :
    Except String Schema :=
  let uc := if ¬ uc.browser_notifications then { uc with browser_notifications := true } else uc
  let tc := if tc.reminder_sent then { tc with reminder_sent := false } else tc
  if ¬ tc.created_at then
    .ok { s with usersTable := some uc
                 tasksTable := some { tc with created_at := true }
                 taskRows := s.taskRows.map (fun r => { r with created_at := some now }) }
  else
    .ok { s with usersTable := some uc, tasksTable := some tc }

/-- The startup migration routine (server.js lines 21-90).  Step 1 creates
the users table when absent (its CREATE TABLE includes
browser_notifications), step 2 creates the tasks table when absent (its
CREATE TABLE includes created_at and has no reminder_sent), step 3 renames a
legacy email_notifications column to browser_notifications — which SQLite
refuses when the target column already exists, surfacing as the caught
migration error — and steps 4 to 6 are `migrateTail`. -/
def migrate (now : String) (s0 : Schema) : Except String Schema :=
  let s1 := match s0.usersTable with
    | none => { s0 with usersTable := some ⟨false, true⟩, userRows := [] }
    | some _ => s0
  let s2 := match s1.tasksTable with
    | none => { s1 with tasksTable := some ⟨false, true⟩, taskRows := [] }
    | some _ => s1
  match s2.usersTable, s2.tasksTable with
  | some uc, some tc =>
    if uc.email_notifications then
      if uc.browser_notifications then
        .error "SQLITE_ERROR: duplicate column name: browser_notifications"
      else
        migrateTail now s2 ⟨false, true⟩ tc
    else
      migrateTail now s2 uc tc
  | _, _ => .error "unreachable"

/-! Reachability of store states through the two write paths, and the
completed/status consistency invariant of §3 of the spec. -/

/-- The consistency invariant of §3: every stored task has completed true
exactly when its status is the string "completed". -/
def TaskInv (db : DB) : Prop :=
  ∀ t ∈ db.tasks, t.completed = true ↔ t.status = "completed"

/-- States reachable from a start state by successful createTask and
updateTask calls, the update bodies constrained by `P`. -/
inductive Reach (P : UpdatePayload → Prop) : DB → DB → Prop where
  | refl (db : DB) : Reach P db db
  | create {db0 db db' : DB} {r : Option Task} (u : Nat) (now : String) (body : CreateBody)
      (h0 : Reach P db0 db) (h : createTask u now body db = .ok (db', r)) : Reach P db0 db'
  | update {db0 db db' : DB} {r : Option Task} (u tid : Nat) (body : UpdatePayload)
      (h0 : Reach P db0 db) (hp : P body) (h : updateTask u tid body db = .ok (db', r)) :
      Reach P db0 db'

/-- Update bodies under which the consistency invariant is preserved: either
the body carries a non-empty status (so completed is recomputed), or it
carries neither status nor completed (so both columns are untouched). -/
def okPayload (p : UpdatePayload) : Bool :=
  match p.status with
  | some s => s ≠ ""
  | none => p.completed == none

/-! Concrete instances used by witnesses and counterexamples. -/

/-- A store holding one task with id 1 owned by user 2. -/
def c1db : DB := ⟨[], [⟨1, "t", some "", "medium", "pending", none, false, 2, some "T"⟩], 2⟩

/-- The empty store of a fresh database file. -/
def emptyDB : DB := ⟨[], [], 1⟩

/-- The task created with title "a" for user 1 at time "T0" on a fresh
store. -/
def c2task1 : Task := ⟨1, "a", some "", "medium", "pending", none, false, 1, some "T0"⟩

/-- The store after creating one task with title "a" for user 1 at time
"T0". -/
def c2mid : DB := ⟨[], [c2task1], 2⟩

/-- The task obtained from the task in `c2mid` by the update body that sets
completed to true without touching the status. -/
def c2bad : Task := ⟨1, "a", some "", "medium", "pending", none, true, 1, some "T0"⟩

/-- The store holding exactly `c2bad`. -/
def c2end : DB := ⟨[], [c2bad], 2⟩

/-- The task `c2task1` after a status update to "completed". -/
def c2doneTask : Task := ⟨1, "a", some "", "medium", "completed", none, true, 1, some "T0"⟩

/-- The store after creating one task for user 1 and completing it through a
status update. -/
def c2done : DB := ⟨[], [c2doneTask], 2⟩

/-- A create body carrying the status "completed". -/
def c7body : CreateBody := { title := some "a", status := some "completed" }

/-- The task created from `c7body`. -/
def c7taskA : Task := ⟨1, "a", some "", "medium", "completed", none, true, 1, some "T0"⟩

/-- The store holding exactly `c7taskA`. -/
def c7dbA : DB := ⟨[], [c7taskA], 2⟩

/-- A create body carrying junk id, user_id, completed and created_at
fields next to the title. -/
def c9junk : CreateBody :=
  { title := some "a", id := some 9, user_id := some 9, completed := some true,
    created_at := some "X" }

/-- An update body that retitles a task, moves it to user 2 and renumbers it
to id 5. -/
def c10p : UpdatePayload := { title := some "x", id := some 5, user_id := some 2 }

/-- The task `c2task1` after the update `c10p`. -/
def c10task : Task := ⟨5, "x", some "", "medium", "pending", none, false, 2, some "T0"⟩

/-- The store after applying `c10p` to the store `c2mid`. -/
def c10end : DB := ⟨[], [c10task], 2⟩

/-- A registered user with id 1. -/
def aliceUser : User := ⟨1, "alice", "a@x.com", "h", true⟩

/-- A task owned by user 1. -/
def c3task : Task := ⟨1, "t", some "", "medium", "pending", none, false, 1, some "T"⟩

/-- A store holding user 1 and one of her tasks. -/
def c3db : DB := ⟨[aliceUser], [c3task], 2⟩

/-- A store holding a task of user 1 but no user row for id 1. -/
def c3dbNoUser : DB := ⟨[], [c3task], 2⟩

/-- A store holding only user 1. -/
def c5db : DB := ⟨[aliceUser], [], 1⟩

/-- An instant late in UTC day 100 (23:00 UTC) on a server running at a
fixed offset of +330 minutes (UTC+5:30), where the local calendar date is
already day 101. -/
def c6clock : Clock := ⟨100, 1380, 330⟩

/-- An incomplete task of user 1 due on day 102, the local tomorrow of
`c6clock`. -/
def c6task : Task := ⟨1, "t", some "", "medium", "pending", some 102, false, 1, some "T"⟩

/-- The store holding exactly `c6task`. -/
def c6db : DB := ⟨[], [c6task], 2⟩

/-- An incomplete task of user 1 due on day 101, the UTC tomorrow of
`c6clock`. -/
def c6wtask : Task := ⟨1, "t", some "", "medium", "pending", some 101, false, 1, some "T"⟩

/-- The store holding exactly `c6wtask`. -/
def c6wdb : DB := ⟨[], [c6wtask], 2⟩

/-- The schema state before any migration has run. -/
def c8start : Schema := ⟨none, none, [], []⟩

/-- The canonical schema state after a successful migration. -/
def c8fin : Schema := ⟨some ⟨false, true⟩, some ⟨false, true⟩, [], []⟩

/-! Theorems. -/

/-- Helper: on success, createTask appends exactly the row built by mkTask
from the AUTOINCREMENT counter. -/
theorem createTask_ok_tasks {u : Nat} {now : String} {body : CreateBody} {db db' : DB}
    {r : Option Task} (h : createTask u now body db = .ok (db', r)) :
    db'.tasks = db.tasks ++ [mkTask u now body db.nextTaskId] := by
  unfold createTask at h
  split at h
  · simp at h
  · split at h
    · simp at h
    · simp only [Except.ok.injEq, Prod.mk.injEq] at h
      rw [← h.1]

/-- Helper: on success, updateTask rewrites exactly the rows matching the
task id with the derived update body. -/
theorem updateTask_ok_tasks {u tid : Nat} {body : UpdatePayload} {db db' : DB}
    {r : Option Task} (h : updateTask u tid body db = .ok (db', r)) :
    db'.tasks = db.tasks.map
      (fun t => if t.id == tid then applyUpdates (deriveUpdates body) t else t) := by
  unfold updateTask at h
  split at h
  · simp at h
  · dsimp only at h
    split at h
    · simp at h
    · split at h
      · simp at h
      · simp only [Except.ok.injEq, Prod.mk.injEq] at h
        rw [← h.1]

/-- C1: for an authenticated user u and task id t with no task of id t owned
by u — whether t is absent altogether or owned by a different user — both
updateTask and deleteTask answer the same NotFoundError (404, "Task not
found"), so the two cases are observably identical. -/
theorem update_delete_not_found (u tid : Nat) (p : UpdatePayload) (db : DB)
    (h : ∀ t ∈ db.tasks, ¬ (t.id = tid ∧ t.user_id = u)) :
    updateTask u tid p db = .error ⟨404, "Task not found"⟩
    ∧ deleteTask u tid db = .error ⟨404, "Task not found"⟩ := by
  have hf : db.tasks.find? (fun t => t.id == tid && t.user_id == u) = none := by
    rw [List.find?_eq_none]
    intro t ht
    simpa using h t ht
  have hc : db.tasks.countP (fun t => t.id == tid && t.user_id == u) = 0 := by
    rw [List.countP_eq_zero]
    intro t ht
    simpa using h t ht
  constructor
  · unfold updateTask
    rw [hf]
  · unfold deleteTask
    simp [hc]

/-- Witness for C1 at a store whose only task with the requested id is owned
by a different user. -/
theorem update_delete_not_found_witness :
    (∀ t ∈ c1db.tasks, ¬ (t.id = 1 ∧ t.user_id = 1))
    ∧ updateTask 1 1 {} c1db = .error ⟨404, "Task not found"⟩
    ∧ deleteTask 1 1 c1db = .error ⟨404, "Task not found"⟩ :=
  ⟨by decide, (update_delete_not_found 1 1 {} c1db (by decide)).1,
    (update_delete_not_found 1 1 {} c1db (by decide)).2⟩

/-- Helper: rewriting one row with a derived update body whose original body
passes `okPayload` preserves the consistency invariant of that row. -/
theorem applyUpdates_inv (p : UpdatePayload) (hp : okPayload p = true) (t : Task)
    (ht : t.completed = true ↔ t.status = "completed") :
    (applyUpdates (deriveUpdates p) t).completed = true
      ↔ (applyUpdates (deriveUpdates p) t).status = "completed" := by
  unfold okPayload at hp
  cases hstat : p.status with
  | none =>
    rw [hstat] at hp
    have hcomp : p.completed = none := by simpa using hp
    simp [deriveUpdates, hstat, isTruthy, applyUpdates, hcomp, ht]
  | some s =>
    rw [hstat] at hp
    have hs : s ≠ "" := by simpa using hp
    by_cases hcs : s = "completed"
    · subst hcs
      simp [deriveUpdates, hstat, applyUpdates]
    · have h1 : p.status ≠ some "completed" := by simp [hstat, hcs]
      have h2 : isTruthy (some s) = true := by simp [isTruthy, hs]
      simp [deriveUpdates, h1, h2, applyUpdates, hstat, hcs]

/-- C2 (amended): every store reachable from an invariant-satisfying store
through createTask and through updateTask calls whose bodies either carry a
non-empty status or carry neither status nor completed satisfies the
completed/status consistency invariant. -/
theorem taskInv_reachable (db0 db : DB) (h0 : TaskInv db0)
    (h : Reach (fun p => okPayload p = true) db0 db) : TaskInv db := by
  induction h with
  | refl => exact h0
  | @create dbPrev dbNext r u now body h0x hc ih =>
    intro t ht
    rw [createTask_ok_tasks hc] at ht
    rcases List.mem_append.mp ht with h1 | h1
    · exact ih t h1
    · have h2 : t = mkTask u now body dbPrev.nextTaskId := by simpa using h1
      subst h2
      simp [mkTask]
  | @update dbPrev dbNext r u tid body h0x hp hup ih =>
    intro t ht
    rw [updateTask_ok_tasks hup] at ht
    rcases List.mem_map.mp ht with ⟨s, hs, rfl⟩
    by_cases hid : (s.id == tid) = true
    · rw [if_pos hid]
      exact applyUpdates_inv body hp s (ih s hs)
    · rw [if_neg hid]
      exact ih s hs

/-- Witness for C2 (amended): creating a task and then completing it through
a status update keeps the invariant. -/
theorem taskInv_reachable_witness : TaskInv c2done :=
  taskInv_reachable emptyDB c2done (by unfold TaskInv; decide)
    (Reach.update 1 1 { status := some "completed" }
      (Reach.create 1 "T0" { title := some "a" } (Reach.refl emptyDB) rfl) rfl rfl)

/-- Counterexample for C2 as stated: from the empty store, create a task
(status "pending", completed false) and update it with the body that only
sets completed to true; the resulting reachable store violates the
invariant, since the stored task has completed = true while its status is
still "pending". -/
theorem taskInv_reachable_counterexample :
    Reach (fun _ => True) emptyDB c2end ∧ ¬ TaskInv c2end :=
  ⟨Reach.update 1 1 { completed := some true }
      (Reach.create 1 "T0" { title := some "a" } (Reach.refl emptyDB) rfl) trivial rfl,
    by unfold TaskInv; decide⟩

/-- C3: deleteAccount is atomic.  When no user row carries the id, the whole
operation fails and the post-state — tasks included — equals the pre-state;
when the user row exists, the tasks of the user and the user row are removed
together and the operation reports success. -/
theorem deleteAccount_atomic (uid : Nat) (db : DB) :
    ((∀ u ∈ db.users, u.id ≠ uid) →
      deleteAccount uid db = (db, .error ⟨500, "Failed to delete account"⟩))
    ∧ (∀ u ∈ db.users, u.id = uid →
      (deleteAccount uid db).1.tasks = db.tasks.filter (fun t => ¬ (t.user_id == uid))
      ∧ (deleteAccount uid db).1.users = db.users.filter (fun v => ¬ (v.id == uid))
      ∧ (deleteAccount uid db).2 = .ok "Account and all data deleted successfully") := by
  constructor
  · intro h
    have hc : db.users.countP (fun u => u.id == uid) = 0 := by
      rw [List.countP_eq_zero]
      intro u hu
      simpa using h u hu
    unfold deleteAccount deleteAccountTrx
    simp [hc]
  · intro u hu huid
    have hc : db.users.countP (fun u => u.id == uid) ≠ 0 := by
      have : 0 < db.users.countP (fun u => u.id == uid) :=
        List.countP_pos_iff.mpr ⟨u, hu, by simp [huid]⟩
      omega
    unfold deleteAccount deleteAccountTrx
    simp [hc]

/-- Witness for C3: deleting the account of user 1 removes the user row and
her task together; on the store missing the user row the post-state equals
the pre-state. -/
theorem deleteAccount_atomic_witness :
    deleteAccount 1 c3dbNoUser = (c3dbNoUser, .error ⟨500, "Failed to delete account"⟩)
    ∧ (deleteAccount 1 c3db).1.tasks = []
    ∧ (deleteAccount 1 c3db).1.users = []
    ∧ (deleteAccount 1 c3db).2 = .ok "Account and all data deleted successfully" := by
  refine ⟨(deleteAccount_atomic 1 c3dbNoUser).1 (by decide), ?_, ?_, ?_⟩
  · exact ((deleteAccount_atomic 1 c3db).2 aliceUser (by decide) rfl).1
  · exact ((deleteAccount_atomic 1 c3db).2 aliceUser (by decide) rfl).2.1
  · exact ((deleteAccount_atomic 1 c3db).2 aliceUser (by decide) rfl).2.2

/-- C4: verifying a token issued by signToken, with the same process-wide
key and before the 24-hour expiry, succeeds and attaches exactly the id and
username of the user. -/
theorem token_roundtrip (u : User) (secret : String) (now t : Nat)
    (h : t < now + JWT_EXPIRE_SECONDS) :
    requireAuth (.bearer (signToken u secret now)) secret t = .ok ⟨u.id, u.username⟩ := by
  have hv : verifyToken (signToken u secret now) secret t = .ok ⟨u.id, u.username⟩ := by
    unfold verifyToken signToken
    rw [if_neg (by simp), if_neg (show ¬ (now + JWT_EXPIRE_SECONDS ≤ t) by omega)]
  simp [requireAuth, hv]

/-- Witness for C4: user 1, key "k", issued at 0, verified at the last
second before expiry. -/
theorem token_roundtrip_witness :
    86399 < 0 + JWT_EXPIRE_SECONDS
    ∧ requireAuth (.bearer (signToken aliceUser "k" 0)) "k" 86399 = .ok ⟨1, "alice"⟩ :=
  ⟨by decide, token_roundtrip aliceUser "k" 0 86399 (by decide)⟩

/-- C5: login answers the one 401 response ("Incorrect email or password")
both when the email is unregistered and when the email is registered but the
hash comparison fails, so a caller cannot tell the two cases apart. -/
theorem login_indistinguishable (compare : String → String → Bool) (secret : String)
    (now : Nat) (email pw : String) (db : DB) :
    (db.users.find? (fun u => u.email == email) = none →
      login compare secret now email pw db = .error ⟨401, "Incorrect email or password"⟩)
    ∧ (∀ u, db.users.find? (fun u => u.email == email) = some u →
        compare pw u.password = false →
        login compare secret now email pw db = .error ⟨401, "Incorrect email or password"⟩) := by
  constructor
  · intro h
    unfold login
    rw [h]
  · intro u hu hc
    unfold login
    rw [hu]
    simp [hc]

/-- Witness for C5: on a store holding only user 1, an unregistered email
and a registered email with a wrong password produce the identical 401
response. -/
theorem login_indistinguishable_witness :
    login (fun p h => p == h) "k" 0 "b@x.com" "w" c5db
      = .error ⟨401, "Incorrect email or password"⟩
    ∧ login (fun p h => p == h) "k" 0 "a@x.com" "w" c5db
      = .error ⟨401, "Incorrect email or password"⟩ :=
  ⟨(login_indistinguishable (fun p h => p == h) "k" 0 "b@x.com" "w" c5db).1 (by decide),
   (login_indistinguishable (fun p h => p == h) "k" 0 "a@x.com" "w" c5db).2 aliceUser
     (by decide) (by decide)⟩

/-- C7: completed is derived from status on both write paths.  createTask
with status "completed" persists completed = true and with any other
(including defaulted) status persists completed = false; updateTask whose
body carries status "completed" stores completed = true on the rewritten
rows whatever completed the body carries, and an update with status
"pending" stores completed = false. -/
theorem completed_derived_on_writes :
    (∀ (u : Nat) (now : String) (body : CreateBody) (db db' : DB) (r : Option Task),
      createTask u now body db = .ok (db', r) →
      db'.tasks = db.tasks ++ [mkTask u now body db.nextTaskId]
      ∧ (body.status = some "completed" → (mkTask u now body db.nextTaskId).completed = true)
      ∧ (body.status.getD "pending" ≠ "completed" →
          (mkTask u now body db.nextTaskId).completed = false))
  ∧ (∀ (u tid : Nat) (p : UpdatePayload) (db db' : DB) (r : Option Task),
      p.status = some "completed" → updateTask u tid p db = .ok (db', r) →
      db'.tasks = db.tasks.map
        (fun t => if t.id == tid then applyUpdates (deriveUpdates p) t else t)
      ∧ ∀ t : Task, (applyUpdates (deriveUpdates p) t).completed = true)
  ∧ (∀ (u tid : Nat) (p : UpdatePayload) (db db' : DB) (r : Option Task),
      p.status = some "pending" → updateTask u tid p db = .ok (db', r) →
      db'.tasks = db.tasks.map
        (fun t => if t.id == tid then applyUpdates (deriveUpdates p) t else t)
      ∧ ∀ t : Task, (applyUpdates (deriveUpdates p) t).completed = false) := by
  refine ⟨?_, ?_, ?_⟩
  · intro u now body db db' r h
    refine ⟨createTask_ok_tasks h, ?_, ?_⟩
    · intro hs
      simp [mkTask, hs]
    · intro hs
      simp [mkTask, beq_eq_false_iff_ne, hs]
  · intro u tid p db db' r hs h
    refine ⟨updateTask_ok_tasks h, fun t => ?_⟩
    simp [deriveUpdates, hs, applyUpdates]
  · intro u tid p db db' r hs h
    refine ⟨updateTask_ok_tasks h, fun t => ?_⟩
    have h1 : p.status ≠ some "completed" := by
      rw [hs]
      intro e
      exact absurd (Option.some.inj e) (by decide)
    have h2 : isTruthy p.status = true := by
      rw [hs]
      decide
    simp [deriveUpdates, h1, h2, applyUpdates]

/-- Witness for C7: create with status "completed" stores completed = true;
updating the pending task to status "completed" stores completed = true
although the body has no completed; updating back to "pending" stores
completed = false. -/
theorem completed_derived_on_writes_witness :
    (c7dbA.tasks = emptyDB.tasks ++ [mkTask 1 "T0" c7body 1]
      ∧ (mkTask 1 "T0" c7body 1).completed = true)
    ∧ (applyUpdates (deriveUpdates { status := some "completed" }) c2task1).completed = true
    ∧ (applyUpdates (deriveUpdates { status := some "pending" }) c7taskA).completed = false := by
  refine ⟨⟨?_, ?_⟩, ?_, ?_⟩
  · exact (completed_derived_on_writes.1 1 "T0" c7body emptyDB c7dbA (some c7taskA) rfl).1
  · exact (completed_derived_on_writes.1 1 "T0" c7body emptyDB c7dbA (some c7taskA) rfl).2.1 rfl
  · exact (completed_derived_on_writes.2.1 1 1 { status := some "completed" } c2mid c2done
      (some c2doneTask) rfl rfl).2 c2task1
  · exact (completed_derived_on_writes.2.2 1 1 { status := some "pending" } c7dbA c2mid
      (some c2task1) rfl rfl).2 c7taskA

/-- C9: createTask takes the owner from the authenticated identity and reads
only title, description, priority, status and dueDate from the body: any id,
user_id, completed or created_at supplied in the body leaves the whole
operation unchanged, and the persisted row carries the callers id as
user_id. -/
theorem createTask_owner_and_whitelist :
    ∀ (u : Nat) (now : String) (body : CreateBody) (db : DB)
      (a b : Option Nat) (c : Option Bool) (d : Option String),
      createTask u now { body with id := a, user_id := b, completed := c, created_at := d } db
        = createTask u now body db
      ∧ (∀ (db' : DB) (r : Option Task), createTask u now body db = .ok (db', r) →
          db'.tasks = db.tasks ++ [mkTask u now body db.nextTaskId]
          ∧ (mkTask u now body db.nextTaskId).user_id = u) := by
  intro u now body db a b c d
  exact ⟨rfl, fun db' r h => ⟨createTask_ok_tasks h, rfl⟩⟩

/-- Witness for C9: junk id, user_id, completed and created_at in the body
change nothing, and the persisted row belongs to caller 1. -/
theorem createTask_owner_and_whitelist_witness :
    createTask 1 "T0" c9junk emptyDB = createTask 1 "T0" { title := some "a" } emptyDB
    ∧ c2mid.tasks = emptyDB.tasks ++ [mkTask 1 "T0" { title := some "a" } 1]
    ∧ (mkTask 1 "T0" { title := some "a" } 1).user_id = 1 := by
  refine ⟨?_, ?_, ?_⟩
  · exact (createTask_owner_and_whitelist 1 "T0" { title := some "a" } emptyDB
      (some 9) (some 9) (some true) (some "X")).1
  · exact ((createTask_owner_and_whitelist 1 "T0" { title := some "a" } emptyDB
      none none none none).2 c2mid (some c2task1) rfl).1
  · exact ((createTask_owner_and_whitelist 1 "T0" { title := some "a" } emptyDB
      none none none none).2 c2mid (some c2task1) rfl).2

/-- Helper: the body mutation of the update handler touches only the
completed field. -/
theorem deriveUpdates_proj (p : UpdatePayload) :
    (deriveUpdates p).title = p.title ∧ (deriveUpdates p).description = p.description
    ∧ (deriveUpdates p).priority = p.priority ∧ (deriveUpdates p).status = p.status
    ∧ (deriveUpdates p).dueDate = p.dueDate ∧ (deriveUpdates p).id = p.id
    ∧ (deriveUpdates p).user_id = p.user_id
    ∧ (deriveUpdates p).created_at = p.created_at := by
  unfold deriveUpdates
  split_ifs <;> exact ⟨rfl, rfl, rfl, rfl, rfl, rfl, rfl, rfl⟩

/-- Helper: with no truthy status in the body the mutation is the
identity. -/
theorem deriveUpdates_not_truthy (p : UpdatePayload) (h : isTruthy p.status = false) :
    deriveUpdates p = p := by
  have h1 : p.status ≠ some "completed" := by
    intro e
    rw [e] at h
    simp [isTruthy] at h
  simp [deriveUpdates, h1, h]

/-- C10: updateTask applies the body verbatim with no field whitelist.  On
success the store rewrites exactly the rows matching the id with the derived
body, and on each rewritten row every column present in the body — id and
user_id included, so an owner can renumber a task or hand it to another
user — takes the body value, every absent column keeps its stored value,
with completed the single derived exception: it follows the body only when
the body carries no truthy status. -/
theorem updateTask_applies_verbatim :
    ∀ (u tid : Nat) (p : UpdatePayload) (db db' : DB) (r : Option Task),
      updateTask u tid p db = .ok (db', r) →
      db'.tasks = db.tasks.map
        (fun t => if t.id == tid then applyUpdates (deriveUpdates p) t else t)
      ∧ (∀ t : Task,
          (applyUpdates (deriveUpdates p) t).title = p.title.getD t.title
          ∧ (applyUpdates (deriveUpdates p) t).description = p.description.getD t.description
          ∧ (applyUpdates (deriveUpdates p) t).priority = p.priority.getD t.priority
          ∧ (applyUpdates (deriveUpdates p) t).status = p.status.getD t.status
          ∧ (applyUpdates (deriveUpdates p) t).dueDate = p.dueDate.getD t.dueDate
          ∧ (applyUpdates (deriveUpdates p) t).id = p.id.getD t.id
          ∧ (applyUpdates (deriveUpdates p) t).user_id = p.user_id.getD t.user_id
          ∧ (applyUpdates (deriveUpdates p) t).created_at = p.created_at.getD t.created_at
          ∧ (isTruthy p.status = false →
              (applyUpdates (deriveUpdates p) t).completed = p.completed.getD t.completed)) := by
  intro u tid p db db' r h
  obtain ⟨h1, h2, h3, h4, h5, h6, h7, h8⟩ := deriveUpdates_proj p
  refine ⟨updateTask_ok_tasks h, fun t => ?_⟩
  refine ⟨by simp [applyUpdates, h1], by simp [applyUpdates, h2], by simp [applyUpdates, h3],
    by simp [applyUpdates, h4], by simp [applyUpdates, h5], by simp [applyUpdates, h6],
    by simp [applyUpdates, h7], by simp [applyUpdates, h8], fun hnt => ?_⟩
  rw [deriveUpdates_not_truthy p hnt]
  exact rfl

/-- Witness for C10: the body `c10p` renumbers the task of user 1 to id 5,
hands it to user 2 and retitles it; absent columns keep their values. -/
theorem updateTask_applies_verbatim_witness :
    c10end.tasks = c2mid.tasks.map
      (fun t => if t.id == 1 then applyUpdates (deriveUpdates c10p) t else t)
    ∧ (applyUpdates (deriveUpdates c10p) c2task1).user_id = c10p.user_id.getD c2task1.user_id
    ∧ (applyUpdates (deriveUpdates c10p) c2task1).id = c10p.id.getD c2task1.id
    ∧ (applyUpdates (deriveUpdates c10p) c2task1).status = c2task1.status :=
  ⟨(updateTask_applies_verbatim 1 1 c10p c2mid c10end none rfl).1,
   ((updateTask_applies_verbatim 1 1 c10p c2mid c10end none rfl).2 c2task1).2.2.2.2.2.2.1,
   ((updateTask_applies_verbatim 1 1 c10p c2mid c10end none rfl).2 c2task1).2.2.2.2.2.1,
   ((updateTask_applies_verbatim 1 1 c10p c2mid c10end none rfl).2 c2task1).2.2.2.1⟩

/-- Helper: a successful migration always leaves the canonical column
shape: browser_notifications present and the legacy columns gone. -/
theorem migrate_ok_shape {now : String} {s s' : Schema} (h : migrate now s = .ok s') :
    s'.usersTable = some ⟨false, true⟩ ∧ s'.tasksTable = some ⟨false, true⟩ := by
  obtain ⟨ut, tt, ur, tr⟩ := s
  rcases ut with - | ⟨e, b⟩ <;> rcases tt with - | ⟨rs, ca⟩
  all_goals try cases e
  all_goals try cases b
  all_goals try cases rs
  all_goals try cases ca
  all_goals simp [migrate, migrateTail] at h
  all_goals rw [← h]
  all_goals exact ⟨rfl, rfl⟩

/-- Helper: on the canonical column shape the migration is the identity. -/
theorem migrate_fixed (now : String) (s : Schema) (hu : s.usersTable = some ⟨false, true⟩)
    (ht : s.tasksTable = some ⟨false, true⟩) : migrate now s = .ok s := by
  obtain ⟨ut, tt, ur, tr⟩ := s
  simp only at hu ht
  subst hu
  subst ht
  rfl

/-- C8: the migration routine is idempotent and tolerant of the partially
migrated prior states.  A second run on the output of any successful run
succeeds and returns its input unchanged; and on each legacy state — users
with the legacy email_notifications column, users missing
browser_notifications, tasks with the legacy reminder_sent column, tasks
missing created_at — it succeeds with the canonical schema, keeping every
row and, for the created_at backfill, the data of every row. -/
theorem migrate_idempotent_and_tolerant :
    (∀ (now now2 : String) (s s' : Schema), migrate now s = .ok s' → migrate now2 s' = .ok s')
  ∧ (∀ (now : String) (ur : List String) (tr : List MigTaskRow),
      migrate now ⟨some ⟨true, false⟩, some ⟨false, true⟩, ur, tr⟩
        = .ok ⟨some ⟨false, true⟩, some ⟨false, true⟩, ur, tr⟩
      ∧ migrate now ⟨some ⟨false, false⟩, some ⟨false, true⟩, ur, tr⟩
        = .ok ⟨some ⟨false, true⟩, some ⟨false, true⟩, ur, tr⟩
      ∧ migrate now ⟨some ⟨false, true⟩, some ⟨true, true⟩, ur, tr⟩
        = .ok ⟨some ⟨false, true⟩, some ⟨false, true⟩, ur, tr⟩
      ∧ migrate now ⟨some ⟨false, true⟩, some ⟨false, false⟩, ur, tr⟩
        = .ok ⟨some ⟨false, true⟩, some ⟨false, true⟩, ur,
               tr.map (fun r => { r with created_at := some now })⟩
      ∧ (tr.map (fun r => { r with created_at := some now })).map MigTaskRow.data
          = tr.map MigTaskRow.data) := by
  constructor
  · intro now now2 s s' h
    obtain ⟨hu, ht⟩ := migrate_ok_shape h
    exact migrate_fixed now2 s' hu ht
  · intro now ur tr
    refine ⟨rfl, rfl, rfl, rfl, ?_⟩
    simp [List.map_map]

/-- Witness for C8: the second run on the output of the run on a fresh file
returns its input. -/
theorem migrate_idempotent_and_tolerant_witness :
    migrate "A" c8start = .ok c8fin ∧ migrate "B" c8fin = .ok c8fin :=
  ⟨rfl, migrate_idempotent_and_tolerant.1 "A" "B" c8start c8fin rfl⟩

/-- Helper: a task due on the UTC day after the instant gets daysUntilDue
1. -/
theorem daysUntilDue_utc_tomorrow (c : Clock) (hc : c.minOfDay < minutesPerDay) :
    daysUntilDue (c.utcDay + 1) c = 1 := by
  have hc' : c.minOfDay < 1440 := hc
  unfold daysUntilDue ceilDiv nowMinutes minutesPerDay
  push_cast
  omega

/-- Helper: a task due on the UTC day of the instant gets daysUntilDue 0. -/
theorem daysUntilDue_utc_today (c : Clock) (hc : c.minOfDay < minutesPerDay) :
    daysUntilDue c.utcDay c = 0 := by
  have hc' : c.minOfDay < 1440 := hc
  unfold daysUntilDue ceilDiv nowMinutes minutesPerDay
  push_cast
  omega

/-- Helper: the tasks of the due-soon response are the filtered rows
sorted. -/
theorem listDueSoon_map_fst (u : Nat) (c : Clock) (db : DB) :
    (listDueSoon u c db).map Prod.fst
      = (db.tasks.filter (fun t => t.user_id == u && t.completed == false &&
          (t.dueDate == some c.utcDay || t.dueDate == some (c.utcDay + 1)))).mergeSort
          dueLe := by
  unfold listDueSoon
  rw [List.map_map]
  exact List.map_id _

/-- C6 (amended): listDueSoon returns exactly the incomplete tasks of the
user whose due date equals the current or the next UTC calendar date (the
date part of the ISO rendering of the instant) — not the server-local one
the spec wording names — ordered by ascending due date, each annotated with
daysUntilDue computed as the ceiling of (dueDate − now) in whole days, which
is 1 for a task due on the next UTC date and 0 for one due on the current
UTC date. -/
theorem listDueSoon_utc_spec (u : Nat) (c : Clock) (db : DB)
    (hc : c.minOfDay < minutesPerDay) :
    ((listDueSoon u c db).map Prod.fst).Perm
      (db.tasks.filter (fun t => t.user_id == u && t.completed == false &&
        (t.dueDate == some c.utcDay || t.dueDate == some (c.utcDay + 1))))
    ∧ ((listDueSoon u c db).map Prod.fst).Pairwise (fun a b => dueSoonKey a ≤ dueSoonKey b)
    ∧ (∀ p ∈ listDueSoon u c db,
        p.2 = daysUntilDue (dueSoonKey p.1) c
        ∧ p.1.user_id = u ∧ p.1.completed = false
        ∧ (p.1.dueDate = some c.utcDay ∨ p.1.dueDate = some (c.utcDay + 1))
        ∧ (p.1.dueDate = some (c.utcDay + 1) → p.2 = 1)
        ∧ (p.1.dueDate = some c.utcDay → p.2 = 0)) := by
  refine ⟨?_, ?_, ?_⟩
  · rw [listDueSoon_map_fst]
    exact List.mergeSort_perm _ _
  · rw [listDueSoon_map_fst]
    have hs : ((db.tasks.filter (fun t => t.user_id == u && t.completed == false &&
        (t.dueDate == some c.utcDay || t.dueDate == some (c.utcDay + 1)))).mergeSort
        dueLe).Pairwise (fun a b => dueLe a b = true) := by
      refine List.sorted_mergeSort ?_ ?_ _
      · intro a b d hab hbd
        simp only [dueLe, decide_eq_true_eq] at hab hbd ⊢
        omega
      · intro a b
        simp [dueLe, Nat.le_total]
    exact hs.imp (fun h => by simpa [dueLe] using h)
  · intro p hp
    unfold listDueSoon at hp
    obtain ⟨t, ht, rfl⟩ := List.mem_map.mp hp
    rw [List.mem_mergeSort, List.mem_filter] at ht
    have hconds := ht.2
    simp only [Bool.and_eq_true, Bool.or_eq_true, beq_iff_eq] at hconds
    obtain ⟨⟨hu, hcompl⟩, hdue⟩ := hconds
    refine ⟨rfl, hu, hcompl, hdue, ?_, ?_⟩
    · intro hd
      have hd' : t.dueDate = some (c.utcDay + 1) := hd
      have hk : dueSoonKey t = c.utcDay + 1 := by simp [dueSoonKey, hd']
      show daysUntilDue (dueSoonKey t) c = 1
      rw [hk]
      exact daysUntilDue_utc_tomorrow c hc
    · intro hd
      have hd' : t.dueDate = some c.utcDay := hd
      have hk : dueSoonKey t = c.utcDay := by simp [dueSoonKey, hd']
      show daysUntilDue (dueSoonKey t) c = 0
      rw [hk]
      exact daysUntilDue_utc_today c hc

/-- Witness for C6 (amended): at the instant `c6clock` the store `c6wdb`
holds one incomplete task due on the next UTC date; the response is sorted
and the task carries daysUntilDue 1. -/
theorem listDueSoon_utc_spec_witness :
    c6clock.minOfDay < minutesPerDay
    ∧ ((listDueSoon 1 c6clock c6wdb).map Prod.fst).Pairwise
        (fun a b => dueSoonKey a ≤ dueSoonKey b)
    ∧ listDueSoon 1 c6clock c6wdb = [(c6wtask, 1)] :=
  ⟨by decide, (listDueSoon_utc_spec 1 c6clock c6wdb (by decide)).2.1,
    by simp [listDueSoon, c6wdb, c6wtask, c6clock, dueSoonKey, daysUntilDue, ceilDiv,
      nowMinutes, minutesPerDay, List.filter]⟩

/-- Counterexample for C6 as stated: at the instant `c6clock` (23:00 UTC on
day 100, server timezone UTC+5:30, so the server-local date is already day
101) the incomplete task of user 1 due on day 102 — the local tomorrow —
falls inside the window the spec wording describes, yet the handler returns
the empty list, because it filters on the UTC dates 100 and 101 rendered by
toISOString. -/
theorem listDueSoon_local_counterexample :
    c6clock.minOfDay < minutesPerDay
    ∧ localDay c6clock = c6clock.utcDay + 1
    ∧ dueSoonSpecIncluded 1 c6clock c6task = true
    ∧ listDueSoon 1 c6clock c6db = [] :=
  ⟨by decide, by decide, by decide,
    by simp [listDueSoon, c6db, c6task, c6clock, List.filter]⟩

end TodoApp
